import Mathlib

/-!
Verification development for the igem-wikisync synchronization engine.

Shallow embedding of the two source files:
  * `src/src/igem_wikisync/files.py` — file descriptor classes (`HTMLfile`,
    `CSSfile`, `JSfile`, `OtherFile`) and their remote-identity resolution.
  * `src/main.py` — the sync engine: load/heal the persisted upload map,
    scan the source tree, asset upload phase, checkpoint, document phase,
    final persistence.

Paths are modelled as lists of components; Python `dict`s as ordered
association lists with Python assignment semantics (update in place keeps
the position, new keys append).  A crucial point of fidelity: Python
`pathlib.Path` objects never compare equal to `str` objects, so dictionary
keys of the two kinds are distinct; the model keeps both kinds in `PyKey`.
-/

/-- A path relative to the source root: directory components plus filename.
Mirrors `self._path = Path(path).relative_to(config['src_dir'])` in
`BaseFile.__init__` (files.py line 17). Components are the `Path.parts`. -/
structure RelPath where
  dirs : List String
  filename : String
deriving DecidableEq, Repr

/-- Index of the last `'.'` in a character list (auxiliary, from position `i`). -/
def lastDotIdxAux : List Char → Nat → Option Nat
  | [], _ => none
  | c :: cs, i =>
    match lastDotIdxAux cs (i + 1) with
    | some j => some j
    | none => if c = '.' then some i else none

/-- Index of the last `'.'` in a character list. -/
def lastDotIdx (cs : List Char) : Option Nat :=
  lastDotIdxAux cs 0

/-- Python `pathlib.PurePath.suffix` on a filename: the part from the last
dot, provided the dot is neither the first nor the last character. -/
def pathSuffix (name : String) : String :=
  let cs := name.toList
  match lastDotIdx cs with
  | some i => if 0 < i ∧ i < cs.length - 1 then String.mk (cs.drop i) else ""
  | none => ""

/-- Python `pathlib.PurePath.stem` on a filename: the name without its suffix. -/
def pathStem (name : String) : String :=
  let sfx := pathSuffix name
  if sfx = "" then name else String.mk (name.toList.take (name.length - sfx.length))

/-- Python `str(path)` on a relative path (components joined with `/`). -/
def strOfParts (parts : List String) : String :=
  String.intercalate "/" parts

/-- Python `str(path.parent)`: `"."` for a file at the source root, else the
directory components joined with `/`. -/
def parentStr (p : RelPath) : String :=
  if p.dirs = [] then "." else String.intercalate "/" p.dirs

/-- Python `str(path.parent / path.stem)`: the stem for a root-level file,
else parent joined with the stem. Used by `CSSfile`/`JSfile`
`_generate_upload_path` (files.py lines 126, 162). -/
def parentSlashStem (p : RelPath) : String :=
  if p.dirs = [] then pathStem p.filename
  else String.intercalate "/" p.dirs ++ "/" ++ pathStem p.filename

/-- Python `str.replace('.', '-')` (single-character replacement, all
occurrences), as used in files.py lines 128 and 164. -/
def replaceDotDash (s : String) : String :=
  String.mk (s.toList.map fun c => if c = '.' then '-' else c)

namespace HTMLfile

/-- `HTMLfile._generate_upload_path` (files.py lines 83-94): `str(path.parent)`,
mapped to `""` when it is `"."` (root-level file), else prefixed with `/`. -/
def upload_path (p : RelPath) : String :=
  let up := parentStr p
  if up = "." then "" else "/" ++ up

/-- `HTMLfile._generate_upload_URL` (files.py lines 96-102). -/
def upload_URL (team : String) (p : RelPath) : String :=
  "https://2020.igem.org/wiki/index.php?title=Team:" ++ team ++ upload_path p ++ "&action=edit"

/-- `HTMLfile._generate_link_URL` (files.py lines 104-110). -/
def link_URL (team : String) (p : RelPath) : String :=
  "https://2020.igem.org/Team:" ++ team ++ upload_path p

end HTMLfile

namespace CSSfile

/-- `CSSfile._generate_upload_path` (files.py lines 120-130): drop the file
extension (`parent / stem`), replace every `'.'` with `'-'`, append the tag
`CSS`, and prefix with `/`. -/
def upload_path (p : RelPath) : String :=
  "/" ++ (replaceDotDash (parentSlashStem p) ++ "CSS")

/-- `CSSfile._generate_upload_URL` (files.py lines 132-139). -/
def upload_URL (team : String) (p : RelPath) : String :=
  "https://2020.igem.org/wiki/index.php?title=Template:" ++ team ++ upload_path p ++ "&action=edit"

/-- `CSSfile._generate_link_URL` (files.py lines 141-146). -/
def link_URL (team : String) (p : RelPath) : String :=
  "https://2020.igem.org/Template:" ++ team ++ upload_path p ++ "?action=raw&ctype=text/css"

end CSSfile

namespace JSfile

/-- `JSfile._generate_upload_path` (files.py lines 156-166): same scheme as
CSS with tag `JS`. -/
def upload_path (p : RelPath) : String :=
  "/" ++ (replaceDotDash (parentSlashStem p) ++ "JS")

/-- `JSfile._generate_upload_URL` (files.py lines 168-174). -/
def upload_URL (team : String) (p : RelPath) : String :=
  "https://2020.igem.org/wiki/index.php?title=Template:" ++ team ++ upload_path p ++ "&action=edit"

/-- `JSfile._generate_link_URL` (files.py lines 176-181). -/
def link_URL (team : String) (p : RelPath) : String :=
  "https://2020.igem.org/Template:" ++ team ++ upload_path p ++ "?action=raw&ctype=text/javascript"

end JSfile

namespace OtherFile

/-- `OtherFile._generate_upload_filename` (files.py lines 206-210).
`assetsCfg` models `config['assets']`, the configured asset root list; the
leading path component is dropped exactly when it has length one. -/
def upload_filename (team : String) (assetsCfg : List String) (p : RelPath) : String :=
  if assetsCfg.length = 1 then
    "T--" ++ team ++ "--" ++ String.intercalate "--" ((p.dirs ++ [p.filename]).drop 1)
  else
    "T--" ++ team ++ "--" ++ String.intercalate "--" (p.dirs ++ [p.filename])

end OtherFile

/-- The digest constructors offered by Python `hashlib` that this program uses. -/
inductive DigestAlg where
  | md5
  | sha1
deriving DecidableEq, Repr

/-- The digest algorithm `OtherFile._generate_md5_hash` actually constructs:
`h = hashlib.sha1()` (files.py line 218), despite the method name and its
docstring saying MD5. This digest is what the asset phase stores and
compares (main.py lines 179, 197). -/
def otherFileHashAlg : DigestAlg := .sha1

/-- The digest algorithm used for transformed document text:
`md5(processed.encode('utf-8')).hexdigest()` (main.py line 257). -/
def docContentHashAlg : DigestAlg := .md5

/-- Raw-byte digest of an asset, given an interpretation of the hashlib
digest family: `OtherFile._generate_md5_hash` dispatches to SHA-1. -/
def otherFileDigest (hash : DigestAlg → List Nat → String) (raw : List Nat) : String :=
  hash otherFileHashAlg raw

/-- Digest of a document's transformed text (as UTF-8 bytes), given the same
interpretation of the hashlib digest family: main.py line 257 dispatches to MD5. -/
def docContentDigest (hash : DigestAlg → List Nat → String) (text : List Nat) : String :=
  hash docContentHashAlg text

/-- A Python dictionary key as used for the upload-map sub-dictionaries.
Python `str` and `pathlib.Path` values are never equal to each other
(`PurePath.__eq__` requires a `PurePath` instance), so the two kinds are
distinct constructors. -/
inductive PyKey where
  | str (s : String)
  | path (parts : List String)
deriving DecidableEq, Repr

/-- A Python `dict` as an ordered association list. -/
def Dict (α : Type) : Type := List (PyKey × α)

instance (α : Type) [DecidableEq α] : DecidableEq (Dict α) :=
  inferInstanceAs (DecidableEq (List (PyKey × α)))

instance (α : Type) [Repr α] : Repr (Dict α) :=
  inferInstanceAs (Repr (List (PyKey × α)))

namespace Dict

/-- The empty dictionary `{}`. -/
def empty {α : Type} : Dict α := []

/-- Python `d[k]` lookup (first matching key; keys are unique in practice). -/
def get? {α : Type} : Dict α → PyKey → Option α
  | [], _ => none
  | (k', v) :: rest, k => if k' = k then some v else get? rest k

/-- Python `k in d.keys()`. -/
def hasKey {α : Type} (m : Dict α) (k : PyKey) : Bool :=
  (m.get? k).isSome

/-- Python `d[k] = v` assignment: update in place keeps the key's position,
a new key is appended (insertion order preserved). -/
def set {α : Type} : Dict α → PyKey → α → Dict α
  | [], k, v => [(k, v)]
  | (k', v') :: rest, k, v =>
    if k' = k then (k, v) :: rest else (k', v') :: set rest k v

/-- The values of the dictionary, in insertion order (Python iteration order). -/
def values {α : Type} (m : Dict α) : List α :=
  m.map (·.2)

end Dict

/-- An entry of the `assets` section of the upload map:
`{'link_URL': ..., 'md5': ..., 'upload_filename': ...}` (main.py lines
215-219). `uploadFilename` is optional because the in-place update at lines
197-198 touches only `md5` and `link_URL`. -/
structure AssetEntry where
  md5 : String
  linkURL : String
  uploadFilename : Option String
deriving DecidableEq, Repr

/-- An entry of the `html`/`css`/`js` sections of the upload map:
`{'md5': ..., 'link_URL': ...}` (main.py lines 125-128). -/
structure DocEntry where
  md5 : String
  linkURL : String
deriving DecidableEq, Repr

/-- The in-memory `upload_map` with its four category sections. -/
structure SyncMap where
  assets : Dict AssetEntry
  html : Dict DocEntry
  css : Dict DocEntry
  js : Dict DocEntry
deriving DecidableEq, Repr

/-- The canonical empty upload map (main.py lines 57-62). -/
def emptySyncMap : SyncMap :=
  { assets := [], html := [], css := [], js := [] }

/-- Document categories (file extensions handled as code). -/
inductive FileExt where
  | html
  | css
  | js
deriving DecidableEq, Repr

namespace SyncMap

/-- The section of the map for a document category (`upload_map[ext]`). -/
def docCat (m : SyncMap) : FileExt → Dict DocEntry
  | .html => m.html
  | .css => m.css
  | .js => m.js

/-- Replace the section of the map for a document category. -/
def setDocCat (m : SyncMap) : FileExt → Dict DocEntry → SyncMap
  | .html, d => { m with html := d }
  | .css, d => { m with css := d }
  | .js, d => { m with js := d }

end SyncMap

/-- The shape of one top-level category value in the stored `upload_map.yml`:
either a mapping or some non-mapping (scalar/list) value. -/
inductive RawCat (α : Type) where
  | dict (d : Dict α)
  | scalar
deriving DecidableEq

/-- The observable outcomes of opening and YAML-parsing `upload_map.yml`
(main.py lines 45-47): the file may be missing/unreadable, its contents may
be malformed (YAML error, or a document without a `.keys()` method), or it
parses to a top-level mapping with each of the four category keys present
(with a given shape) or absent. Extraneous top-level keys are not modelled;
no claim concerns them. -/
inductive LoadedFile where
  | missing
  | malformed
  | parsed (assets : Option (RawCat AssetEntry)) (html : Option (RawCat DocEntry))
      (css : Option (RawCat DocEntry)) (js : Option (RawCat DocEntry))

/-- One step of the healing loop at main.py lines 50-55: an absent category
key is replaced with `{}`; a present non-mapping value executes
`raise SystemExit` (returns `none` here). -/
def healCat {α : Type} : Option (RawCat α) → Option (Dict α)
  | none => some Dict.empty
  | some (.dict d) => some d
  | some .scalar => none

/-- The load-or-create logic of main.py lines 44-62. CRUCIAL SEMANTICS: the
whole block, including the healing loop, sits inside `try: ... except:` with
a bare `except`, and a bare `except` clause catches `SystemExit` (it derives
from `BaseException`). So the `raise SystemExit` at line 55, meant to abort
on a malformed (non-mapping) category, is swallowed by line 56 and the
function falls through to the canonical empty map: the run continues. -/
def loadUploadMap : LoadedFile → SyncMap
  | .missing => emptySyncMap
  | .malformed => emptySyncMap
  | .parsed a h c j =>
    match healCat a, healCat h, healCat c, healCat j with
    | some a', some h', some c', some j' =>
      { assets := a', html := h', css := c', js := j' }
    | _, _, _, _ => emptySyncMap

/-- Observable actions of a run, in order. `writeMap` is a call of
`write_upload_map` with the map it persists; `uploadAsset` is a call of
`iGEM_upload_file`; `writeBuild` is an attempt to write the build output
file; `uploadDoc` is a call of `iGEM_upload_page`, with its outcome. -/
inductive Event where
  | uploadAsset (path : String)
  | writeMap (m : SyncMap)
  | writeBuild (path : String)
  | uploadDoc (path : String) (ok : Bool)
deriving DecidableEq, Repr

/-- Descriptor of a scanned code file, as produced from the corresponding
`HTMLfile`/`CSSfile`/`JSfile` object. `contents` is what reading the source
file yields (`none` models a read failure at main.py lines 233-239). -/
structure DocFile where
  path : List String
  ext : FileExt
  linkURL : String
  uploadURL : String
  contents : Option String
deriving Repr

/-- Descriptor of a scanned asset file, from the corresponding `OtherFile`
object: its relative path, the digest of its raw bytes
(`OtherFile.md5_hash`), and its generated upload filename. -/
structure AssetFile where
  path : List String
  md5hash : String
  uploadFilename : String
deriving Repr

/-- One filesystem entry encountered by the `os.walk` loop
(main.py lines 107-165). -/
inductive ScanItem where
  | doc (d : DocFile)
  | asset (a : AssetFile)
  | unsupported (path : List String)

/-- The engine's interface to the environment. `uploadAsset` returns the
`upload_URL` the external `iGEM_upload_file` leaves on the file object
(`none` models a raised exception). `parse` is the content transform
(`HTMLparser`/`CSSparser`/`JSparser`, external to the two source files;
modelled as an opaque deterministic function of category, path, contents and
the current upload map, per the spec's `transform(config, relativePath,
content, syncMap) -> content`). `hashText` is the digest of the transformed
text (main.py line 257). `writeBuild` tells whether writing the build file
succeeds; `uploadPage` whether `iGEM_upload_page` succeeds. -/
structure Oracles where
  uploadAsset : List String → Option String
  parse : FileExt → List String → String → SyncMap → String
  hashText : String → String
  writeBuild : List String → Bool
  uploadPage : List String → Bool

/-- Accumulator of the scan loop: the upload map plus the four file-object
dictionaries `HTMLfiles`, `CSSfiles`, `JSfiles`, `OtherFiles`
(main.py lines 101-105), each keyed by `file_object.path` (a `Path`). -/
structure ScanState where
  m : SyncMap
  htmls : Dict DocFile
  csss : Dict DocFile
  jss : Dict DocFile
  others : Dict AssetFile

/-- One iteration of the scan loop (main.py lines 107-165). For a code file
the membership test at lines 124/136/148 is
`file_object.path not in upload_map[ext].keys()` — it tests a `Path` key
(`PyKey.path`) against keys that are always strings (loaded from YAML or
inserted as `str(...)`), while the insertion at lines 125/137/149 uses the
string key `str(file_object.path)` with a fresh `{'md5': '',
'link_URL': ...}` entry. -/
def scanStep (st : ScanState) : ScanItem → ScanState
  | .unsupported _ => st
  | .asset a => { st with others := st.others.set (.path a.path) a }
  | .doc d =>
    let cat := st.m.docCat d.ext
    let m' :=
      if cat.hasKey (.path d.path) then st.m
      else st.m.setDocCat d.ext
        (cat.set (.str (strOfParts d.path)) ({ md5 := "", linkURL := d.linkURL }))
    match d.ext with
    | .html => { st with m := m', htmls := st.htmls.set (.path d.path) d }
    | .css => { st with m := m', csss := st.csss.set (.path d.path) d }
    | .js => { st with m := m', jss := st.jss.set (.path d.path) d }

/-- The whole scan loop, from the loaded map. -/
def scanPhase (m0 : SyncMap) (items : List ScanItem) : ScanState :=
  items.foldl scanStep { m := m0, htmls := [], csss := [], jss := [], others := [] }

/-- The upload map after the scan loop. -/
def scannedMap (m0 : SyncMap) (items : List ScanItem) : SyncMap :=
  (scanPhase m0 items).m

/-- The asset descriptors collected by the scan, in iteration order. -/
def scannedAssets (m0 : SyncMap) (items : List ScanItem) : List AssetFile :=
  (scanPhase m0 items).others.values

/-- The code-file descriptors in document-phase order: all HTML files, then
all CSS files, then all JS files (main.py line 226). -/
def scannedDocs (m0 : SyncMap) (items : List ScanItem) : List DocFile :=
  (scanPhase m0 items).htmls.values ++ (scanPhase m0 items).csss.values
    ++ (scanPhase m0 items).jss.values

/-- Whether the asset phase will call `iGEM_upload_file` for this asset:
true when the path is not yet in `upload_map['assets']` or the stored digest
differs from the file's current digest (main.py lines 174-204). -/
def assetNeedsUpload (m : SyncMap) (a : AssetFile) : Bool :=
  match m.assets.get? (.str (strOfParts a.path)) with
  | some entry => !(entry.md5 = a.md5hash)
  | none => true

/-- Assignment to `upload_map['assets'][s]` (main.py lines 197-198, 215-219). -/
def setAssetEntry (m : SyncMap) (s : String) (entry' : AssetEntry) : SyncMap :=
  { m with assets := m.assets.set (.str s) entry' }

/-- Processing of one asset (main.py lines 170-219). The inner loop over
`upload_map['assets'].keys()` compares each key with `str(path)` (line 177),
i.e. looks up the string key. On a digest match: nothing. On a mismatch or a
missing entry: call the upload capability; if it raises, persist the current
map and exit (`(events, none)`); on success update/insert the entry
(`link_URL` is set to the file object's post-upload `upload_URL`). -/
def assetStep (O : Oracles) (m : SyncMap) (a : AssetFile) : List Event × Option SyncMap :=
  match m.assets.get? (.str (strOfParts a.path)) with
  | some entry =>
    if entry.md5 = a.md5hash then ([], some m)
    else
      match O.uploadAsset a.path with
      | none => ([.uploadAsset (strOfParts a.path), .writeMap m], none)
      | some url =>
        ([.uploadAsset (strOfParts a.path)],
          some (setAssetEntry m (strOfParts a.path) ({ entry with md5 := a.md5hash, linkURL := url })))
  | none =>
    match O.uploadAsset a.path with
    | none => ([.uploadAsset (strOfParts a.path), .writeMap m], none)
    | some url =>
      ([.uploadAsset (strOfParts a.path)],
        some (setAssetEntry m (strOfParts a.path) ({ md5 := a.md5hash, linkURL := url, uploadFilename := some a.uploadFilename })))

/-- The asset phase: process assets in order; a fatal step ends the run
(`none`) with the events so far. -/
def assetPhase (O : Oracles) (m : SyncMap) : List AssetFile → List Event × Option SyncMap
  | [] => ([], some m)
  | a :: rest =>
    match assetStep O m a with
    | (evs, none) => (evs, none)
    | (evs, some m') =>
      let r := assetPhase O m' rest
      (evs ++ r.1, r.2)

/-- The in-place digest overwrite `upload_map[ext][path_str]['md5'] =
build_hash` at main.py line 263, which happens BEFORE the build write and
the upload are attempted. -/
def docStepNewMap (O : Oracles) (m : SyncMap) (d : DocFile) (contents : String)
    (entry : DocEntry) : SyncMap :=
  m.setDocCat d.ext ((m.docCat d.ext).set (.str (strOfParts d.path))
    ({ entry with md5 := O.hashText (O.parse d.ext d.path contents m) }))

/-- Processing of one code file (main.py lines 227-286). Read failure: log
and skip. Otherwise transform, hash; a missing map entry would be an
uncaught `KeyError` at line 259 (`none`, run crashes — unreachable after the
scan, which always inserts the entry). On a digest match: skip entirely. On
a mismatch the stored digest is overwritten FIRST (line 263), then the build
write is attempted (failure: skip, `continue`), then the page upload
(failure: logged, `continue`); the map keeps the new digest in all cases. -/
def docStep (O : Oracles) (m : SyncMap) (d : DocFile) : Option (List Event × SyncMap) :=
  match d.contents with
  | none => some ([], m)
  | some contents =>
    match (m.docCat d.ext).get? (.str (strOfParts d.path)) with
    | none => none
    | some entry =>
      if entry.md5 = O.hashText (O.parse d.ext d.path contents m) then some ([], m)
      else
        if O.writeBuild d.path then
          some ([.writeBuild (strOfParts d.path), .uploadDoc (strOfParts d.path) (O.uploadPage d.path)],
            docStepNewMap O m d contents entry)
        else
          some ([.writeBuild (strOfParts d.path)], docStepNewMap O m d contents entry)

/-- The document phase: process code files in order; a `KeyError` crash ends
the run (`none`). -/
def docPhase (O : Oracles) (m : SyncMap) : List DocFile → List Event × Option SyncMap
  | [] => ([], some m)
  | d :: rest =>
    match docStep O m d with
    | none => ([], none)
    | some (evs, m') =>
      let r := docPhase O m' rest
      (evs ++ r.1, r.2)

/-- One run of the sync engine over an already-loaded map (main.py lines
101-289): scan, asset phase (fatal failure persists and exits), checkpoint
write of the map (line 223), document phase, final write (line 289).
Returns the event trace and the final map (`none` on abnormal termination). -/
def runEngine (O : Oracles) (m0 : SyncMap) (items : List ScanItem) :
    List Event × Option SyncMap :=
  match assetPhase O (scannedMap m0 items) (scannedAssets m0 items) with
  | (evA, none) => (evA, none)
  | (evA, some m2) =>
    match docPhase O m2 (scannedDocs m0 items) with
    | (evD, none) => (evA ++ Event.writeMap m2 :: evD, none)
    | (evD, some m3) =>
      (evA ++ Event.writeMap m2 :: (evD ++ [Event.writeMap m3]), some m3)

/-- Whether an event is a document upload attempt. -/
def isUploadDocEv : Event → Bool
  | .uploadDoc _ _ => true
  | _ => false

/-- Whether an event is an asset upload attempt. -/
def isUploadAssetEv : Event → Bool
  | .uploadAsset _ => true
  | _ => false

/-- The upload path as the words of the spec describe it for CSS files
("parent-directory-plus-stem with internal path separators rewritten to a
fixed delimiter, suffixed with a category tag"): the parent components and
the stem joined by the fixed delimiter `delim`, then the tag. Written only
to be compared against `CSSfile.upload_path`, which comes from the source. -/
def cssUploadPathPerSpecWording (delim : String) (p : RelPath) : String :=
  "/" ++ (String.intercalate delim (p.dirs ++ [pathStem p.filename]) ++ "CSS")

/-- Concrete run scenario: the oracle where every external operation
succeeds. The transform is the identity on contents and the text digest is
`"h" ++ text` (any injective stand-in works; no claim depends on the
concrete digest values, only on equality/inequality of digests). -/
def okOracle : Oracles where
  uploadAsset := fun _ => some "https://2020.igem.org/File:Uploaded"
  parse := fun _ _ c _ => c
  hashText := fun s => "h" ++ s
  writeBuild := fun _ => true
  uploadPage := fun _ => true

/-- Scenario oracle where `iGEM_upload_page` raises for every document. -/
def failPageOracle : Oracles :=
  { okOracle with uploadPage := fun _ => false }

/-- Scenario oracle where `iGEM_upload_file` raises for every asset. -/
def failAssetOracle : Oracles :=
  { okOracle with uploadAsset := fun _ => none }

/-- Scenario: the relative path of a root-level `index.html`. -/
def pageRel : RelPath := { dirs := [], filename := "index.html" }

/-- Scenario: the `HTMLfile` descriptor for `index.html` under team `T`,
with source contents `"hello"`. -/
def pageDocFile : DocFile where
  path := ["index.html"]
  ext := .html
  linkURL := HTMLfile.link_URL "T" pageRel
  uploadURL := HTMLfile.upload_URL "T" pageRel
  contents := some "hello"

/-- Scenario: `index.html` as a scan item. -/
def pageItem : ScanItem := .doc pageDocFile

/-- Scenario: the relative path of the asset `assets/logo.png`. -/
def logoRel : RelPath := { dirs := ["assets"], filename := "logo.png" }

/-- Scenario: the `OtherFile` descriptor for `assets/logo.png` (raw-byte
digest `"aa11"`) under team `T` with the single asset root `["assets"]`. -/
def logoAsset : AssetFile where
  path := ["assets", "logo.png"]
  md5hash := "aa11"
  uploadFilename := OtherFile.upload_filename "T" ["assets"] logoRel

/-- Scenario: `assets/logo.png` as a scan item. -/
def logoItem : ScanItem := .asset logoAsset

/-- Scenario: a source tree with one HTML page and one asset. -/
def treeItems : List ScanItem := [pageItem, logoItem]

/-- Scenario: the map persisted at the end of a first, fully successful run
over `treeItems` from an empty map. (Between runs the map round-trips
through `upload_map.yml`; for this map — at most one entry per category —
the stable-keyed YAML round trip is the identity.) -/
def firstRunMap : SyncMap :=
  ((runEngine okOracle emptySyncMap treeItems).2).getD emptySyncMap

/-- Scenario: the map persisted at the end of a first run over just the HTML
page in which the page upload failed (and nothing else did). -/
def failedUploadRunMap : SyncMap :=
  ((runEngine failPageOracle emptySyncMap [pageItem]).2).getD emptySyncMap

/-- Scenario: the post-scan map of a run over just the HTML page, from the
empty map: it holds the entry `{'md5': '', 'link_URL': ...}` for the page. -/
def pageScanMap : SyncMap :=
  scannedMap emptySyncMap [pageItem]

/-- Scenario: a stored `upload_map.yml` whose `js` key is bound to a scalar
(e.g. `js: 5`) while the other three categories are well-formed mappings. -/
def badLoadFile : LoadedFile :=
  .parsed
    (some (.dict [(.str "assets/logo.png",
      { md5 := "zz99", linkURL := "https://2020.igem.org/File:Old",
        uploadFilename := some "T--T--logo.png" })]))
    (some (.dict []))
    (some (.dict []))
    (some .scalar)


/-- Case analysis of one asset step: a cache hit is silent and leaves the map
unchanged; an upload success contributes one `uploadAsset` event; an upload
failure contributes the `uploadAsset` event and a `writeMap` of the current
map, ending the run. -/
theorem assetStep_cases (O : Oracles) (m : SyncMap) (a : AssetFile) :
    assetStep O m a = ([], some m) ∨
    (∃ m', assetStep O m a = ([.uploadAsset (strOfParts a.path)], some m')) ∨
    assetStep O m a = ([.uploadAsset (strOfParts a.path), .writeMap m], none) := by
  unfold assetStep
  rcases hg : m.assets.get? (.str (strOfParts a.path)) with _ | entry
  · rcases hu : O.uploadAsset a.path with _ | url
    · right; right; simp [hu]
    · right; left; exact ⟨_, rfl⟩
  · by_cases h : entry.md5 = a.md5hash
    · left; simp [h]
    · rcases hu : O.uploadAsset a.path with _ | url
      · right; right; simp [h, hu]
      · right; left
        exact ⟨setAssetEntry m (strOfParts a.path) ({ entry with md5 := a.md5hash, linkURL := url }), by simp [h]⟩

/-- A fatal asset step happens exactly when the asset needs an upload and
the upload capability raises; it emits the attempt and persists the current
(not-yet-updated) map. -/
theorem assetStep_fatal (O : Oracles) (m : SyncMap) (a : AssetFile) (E : List Event)
    (h : assetStep O m a = (E, none)) :
    assetNeedsUpload m a = true ∧ O.uploadAsset a.path = none ∧
      E = [.uploadAsset (strOfParts a.path), .writeMap m] := by
  unfold assetStep at h
  unfold assetNeedsUpload
  rcases hg : m.assets.get? (.str (strOfParts a.path)) with _ | entry <;>
    simp only [hg] at h ⊢
  · rcases hu : O.uploadAsset a.path with _ | url <;> simp only [hu] at h <;>
      simp_all
  · by_cases hmd : entry.md5 = a.md5hash
    · simp [hmd] at h
    · rcases hu : O.uploadAsset a.path with _ | url <;> simp only [hmd, hu] at h <;>
        simp_all

/-- A non-fatal asset step emits either nothing or exactly one
`uploadAsset` event. -/
theorem assetStep_ok_events (O : Oracles) (m : SyncMap) (a : AssetFile) (E : List Event)
    (m' : SyncMap) (h : assetStep O m a = (E, some m')) :
    E = [] ∨ E = [.uploadAsset (strOfParts a.path)] := by
  rcases assetStep_cases O m a with hc | ⟨m'', hc⟩ | hc <;> rw [hc] at h
  · left
    exact (congrArg Prod.fst h).symm
  · right
    exact (congrArg Prod.fst h).symm
  · exact absurd (congrArg Prod.snd h) (by simp)

/-- Shape of the asset phase: it either completes, having emitted only
`uploadAsset` events, or ends the run with only `uploadAsset` events
followed by one final `writeMap`. -/
theorem assetPhase_shape (O : Oracles) :
    ∀ (as : List AssetFile) (m : SyncMap),
    (∃ V m', assetPhase O m as = (V, some m') ∧ ∀ e ∈ V, ∃ p, e = Event.uploadAsset p) ∨
    (∃ V mf, assetPhase O m as = (V ++ [Event.writeMap mf], none) ∧
      ∀ e ∈ V, ∃ p, e = Event.uploadAsset p)
  | [], m => by
    left
    exact ⟨[], m, rfl, by simp⟩
  | a :: rest, m => by
    rcases hs : assetStep O m a with ⟨E, r⟩
    rcases r with _ | m₁
    · right
      obtain ⟨_, _, hE⟩ := assetStep_fatal O m a E hs
      subst hE
      exact ⟨[Event.uploadAsset (strOfParts a.path)], m, by simp [assetPhase, hs], by simp⟩
    · have hE := assetStep_ok_events O m a E m₁ hs
      rcases assetPhase_shape O rest m₁ with ⟨V, m', hr, hV⟩ | ⟨V, mf, hr, hV⟩
      · left
        refine ⟨E ++ V, m', by simp [assetPhase, hs, hr], ?_⟩
        intro e he
        rcases List.mem_append.mp he with heE | heV
        · rcases hE with hE | hE <;> subst hE <;> simp_all
        · exact hV e heV
      · right
        refine ⟨E ++ V, mf, by simp [assetPhase, hs, hr], ?_⟩
        intro e he
        rcases List.mem_append.mp he with heE | heV
        · rcases hE with hE | hE <;> subst hE <;> simp_all
        · exact hV e heV

/-- Decomposition of a fatal asset phase: the asset list splits around the
first asset whose required upload raised; all earlier assets were fully
processed (their updates are in the map `m'`), and the whole trace is their
events, then the failed attempt, then the persistence of the accumulated
map `m'` — nothing afterwards (no retry, no further processing). -/
theorem assetPhase_fatal (O : Oracles) :
    ∀ (as : List AssetFile) (m : SyncMap) (U : List Event),
    assetPhase O m as = (U, none) →
    ∃ pre a post V m',
      as = pre ++ a :: post ∧
      assetPhase O m pre = (V, some m') ∧
      (∀ e ∈ V, ∃ p, e = Event.uploadAsset p) ∧
      assetNeedsUpload m' a = true ∧
      O.uploadAsset a.path = none ∧
      U = V ++ [Event.uploadAsset (strOfParts a.path), Event.writeMap m']
  | [], m, U => by
    intro h
    exact absurd (congrArg Prod.snd h) (by simp [assetPhase])
  | a :: rest, m, U => by
    intro h
    rcases hs : assetStep O m a with ⟨E, r⟩
    rcases r with _ | m₁
    · obtain ⟨hneed, hup, hE⟩ := assetStep_fatal O m a E hs
      have hrun : assetPhase O m (a :: rest) = (E, none) := by
        simp [assetPhase, hs]
      rw [h] at hrun
      have hU : U = E := congrArg Prod.fst hrun
      refine ⟨[], a, rest, [], m, rfl, rfl, by simp, hneed, hup, ?_⟩
      rw [hU, hE]
      simp
    · rcases ht : assetPhase O m₁ rest with ⟨U', r'⟩
      have hrun : assetPhase O m (a :: rest) = (E ++ U', r') := by
        simp [assetPhase, hs, ht]
      rw [h] at hrun
      have hU : U = E ++ U' := congrArg Prod.fst hrun
      have hr' : r' = none := (congrArg Prod.snd hrun).symm
      subst hr'
      obtain ⟨pre, b, post, V, m', hsplit, hpre, hV, hneed, hup, hUV⟩ :=
        assetPhase_fatal O rest m₁ U' ht
      refine ⟨a :: pre, b, post, E ++ V, m', by simp [hsplit], ?_, ?_, hneed, hup, ?_⟩
      · simp [assetPhase, hs, hpre]
      · intro e he
        rcases List.mem_append.mp he with heE | heV
        · rcases assetStep_ok_events O m a E m₁ hs with hE | hE <;> subst hE <;> simp_all
        · exact hV e heV
      · rw [hU, hUV]
        simp

/-- A document step emits only build-write and page-upload events. -/
theorem docStep_events (O : Oracles) (m : SyncMap) (d : DocFile) (E : List Event)
    (m' : SyncMap) (h : docStep O m d = some (E, m')) :
    ∀ e ∈ E, (∃ p, e = Event.writeBuild p) ∨ (∃ p b, e = Event.uploadDoc p b) := by
  unfold docStep at h
  rcases hc : d.contents with _ | contents <;> simp only [hc] at h
  · have hE : E = [] := (congrArg Prod.fst (Option.some.inj h)).symm
    subst hE
    simp
  · rcases hg : (m.docCat d.ext).get? (.str (strOfParts d.path)) with _ | entry <;>
      simp only [hg] at h
    · simp at h
    · by_cases hmd : entry.md5 = O.hashText (O.parse d.ext d.path contents m)
      · rw [if_pos hmd] at h
        have hE : E = [] := (congrArg Prod.fst (Option.some.inj h)).symm
        subst hE
        simp
      · by_cases hw : O.writeBuild d.path
        · rw [if_neg hmd, if_pos hw] at h
          have hE : E = [Event.writeBuild (strOfParts d.path),
              Event.uploadDoc (strOfParts d.path) (O.uploadPage d.path)] :=
            (congrArg Prod.fst (Option.some.inj h)).symm
          subst hE
          intro e he
          rcases List.mem_cons.mp he with he1 | he2
          · subst he1
            exact Or.inl ⟨_, rfl⟩
          · have he3 : e = Event.uploadDoc (strOfParts d.path) (O.uploadPage d.path) := by
              simpa using he2
            subst he3
            exact Or.inr ⟨_, _, rfl⟩
        · rw [if_neg hmd, if_neg hw] at h
          have hE : E = [Event.writeBuild (strOfParts d.path)] :=
            (congrArg Prod.fst (Option.some.inj h)).symm
          subst hE
          simp

/-- The document phase emits only build-write and page-upload events. -/
theorem docPhase_events (O : Oracles) :
    ∀ (ds : List DocFile) (m : SyncMap), ∀ e ∈ (docPhase O m ds).1,
      (∃ p, e = Event.writeBuild p) ∨ (∃ p b, e = Event.uploadDoc p b)
  | [], m => by simp [docPhase]
  | d :: rest, m => by
    intro e he
    rcases hs : docStep O m d with _ | ⟨E, m'⟩ <;> simp only [docPhase, hs] at he
    · simp at he
    · rcases List.mem_append.mp he with h1 | h2
      · exact docStep_events O m d E m' hs e h1
      · exact docPhase_events O rest m' e h2

/-- C2: in every run the trace splits as asset-upload events, then one
`writeMap` checkpoint, then only document-phase events (build writes, page
uploads, and the final map write); hence the map is persisted after all
assets are processed and before any document is read, transformed or
uploaded, and no document upload is ever attempted before that checkpoint. -/
theorem checkpoint_separates_phases (O : Oracles) (m0 : SyncMap) (items : List ScanItem) :
    ∃ A mc D, (runEngine O m0 items).1 = A ++ Event.writeMap mc :: D ∧
      (∀ e ∈ A, ∃ p, e = Event.uploadAsset p) ∧
      (∀ e ∈ D, (∃ p, e = Event.writeBuild p) ∨ (∃ p b, e = Event.uploadDoc p b) ∨
        (∃ m', e = Event.writeMap m')) := by
  rcases assetPhase_shape O (scannedAssets m0 items) (scannedMap m0 items) with
    ⟨V, m2, hA, hV⟩ | ⟨V, mf, hA, hV⟩
  · rcases hD : docPhase O m2 (scannedDocs m0 items) with ⟨evD, r⟩
    rcases r with _ | m3
    · have hrun : runEngine O m0 items = (V ++ Event.writeMap m2 :: evD, none) := by
        simp [runEngine, hA, hD]
      refine ⟨V, m2, evD, by rw [hrun], hV, ?_⟩
      intro e he
      have he' : e ∈ (docPhase O m2 (scannedDocs m0 items)).1 := by
        rw [hD]
        exact he
      rcases docPhase_events O (scannedDocs m0 items) m2 e he' with h1 | h1
      · exact Or.inl h1
      · exact Or.inr (Or.inl h1)
    · have hrun : runEngine O m0 items
          = (V ++ Event.writeMap m2 :: (evD ++ [Event.writeMap m3]), some m3) := by
        simp [runEngine, hA, hD]
      refine ⟨V, m2, evD ++ [Event.writeMap m3], by rw [hrun], hV, ?_⟩
      intro e he
      rcases List.mem_append.mp he with h1 | h1
      · have he' : e ∈ (docPhase O m2 (scannedDocs m0 items)).1 := by
          rw [hD]
          exact h1
        rcases docPhase_events O (scannedDocs m0 items) m2 e he' with h2 | h2
        · exact Or.inl h2
        · exact Or.inr (Or.inl h2)
      · have h2 : e = Event.writeMap m3 := by simpa using h1
        exact Or.inr (Or.inr ⟨m3, h2⟩)
  · have hrun : runEngine O m0 items = (V ++ [Event.writeMap mf], none) := by
      simp [runEngine, hA]
    exact ⟨V, mf, [], by rw [hrun], hV, by simp⟩

/-- C3: if the asset phase fails (some required asset upload raised), the
whole run returns exactly the asset phase's trace and terminates: the trace
is the successful uploads of the earlier assets, then the single failed
attempt, then a `writeMap` of the map holding every entry inserted or
updated so far — and nothing else (no document processing, no retry). -/
theorem asset_upload_failure_is_fatal (O : Oracles) (m0 : SyncMap) (items : List ScanItem)
    (U : List Event)
    (h : assetPhase O (scannedMap m0 items) (scannedAssets m0 items) = (U, none)) :
    runEngine O m0 items = (U, none) ∧
    ∃ pre a post V m',
      scannedAssets m0 items = pre ++ a :: post ∧
      assetPhase O (scannedMap m0 items) pre = (V, some m') ∧
      (∀ e ∈ V, ∃ p, e = Event.uploadAsset p) ∧
      assetNeedsUpload m' a = true ∧
      O.uploadAsset a.path = none ∧
      U = V ++ [Event.uploadAsset (strOfParts a.path), Event.writeMap m'] := by
  constructor
  · simp [runEngine, h]
  · exact assetPhase_fatal O (scannedAssets m0 items) (scannedMap m0 items) U h

/-- Witness for `asset_upload_failure_is_fatal`: the concrete scenario where
the only asset's upload raises on a fresh map. -/
theorem asset_upload_failure_is_fatal_witness :
    runEngine failAssetOracle emptySyncMap [logoItem]
      = ([Event.uploadAsset "assets/logo.png", Event.writeMap emptySyncMap], none) ∧
    ∃ pre a post V m',
      scannedAssets emptySyncMap [logoItem] = pre ++ a :: post ∧
      assetPhase failAssetOracle (scannedMap emptySyncMap [logoItem]) pre = (V, some m') ∧
      (∀ e ∈ V, ∃ p, e = Event.uploadAsset p) ∧
      assetNeedsUpload m' a = true ∧
      failAssetOracle.uploadAsset a.path = none ∧
      [Event.uploadAsset "assets/logo.png", Event.writeMap emptySyncMap]
        = V ++ [Event.uploadAsset (strOfParts a.path), Event.writeMap m'] :=
  asset_upload_failure_is_fatal failAssetOracle emptySyncMap [logoItem]
    [Event.uploadAsset "assets/logo.png", Event.writeMap emptySyncMap] rfl

/-- C1 (failing): over the unchanged source tree `treeItems`, a first fully
successful run persists `firstRunMap`; the second run from that map performs
no asset upload (the asset cache hit works) and the map it persists is again
`firstRunMap` (digest values stable) — but it DOES attempt a document
upload: the scan-phase membership test (main.py lines 124/136/148) compares
a `Path` against string keys, never matches, and resets the stored document
digest to `''`, so the document-phase cache comparison (line 259) never
hits and every document is re-written and re-uploaded on every run. -/
theorem second_run_reuploads_documents :
    (runEngine okOracle emptySyncMap treeItems).2 = some firstRunMap ∧
    ((runEngine okOracle firstRunMap treeItems).1.any isUploadAssetEv) = false ∧
    ((runEngine okOracle firstRunMap treeItems).1.any isUploadDocEv) = true ∧
    (runEngine okOracle firstRunMap treeItems).2 = some firstRunMap := by
  exact ⟨rfl, rfl, rfl, rfl⟩

/-- C4 (failing): loading a stored map whose `js` key is bound to a scalar
does NOT terminate the program: the `raise SystemExit` at main.py line 55 is
caught by the bare `except:` at line 56, the whole map is replaced by the
canonical empty map, and the run continues — here all the way to an asset
upload, contradicting "fatal error before any upload occurs". -/
theorem malformed_category_is_healed_not_fatal :
    loadUploadMap badLoadFile = emptySyncMap ∧
    Event.uploadAsset "assets/logo.png"
      ∈ (runEngine okOracle (loadUploadMap badLoadFile) [logoItem]).1 := by
  exact ⟨rfl, by decide⟩

/-- C5: loading the sync map on a missing file or malformed contents yields
the canonical empty map (all four categories present and empty), and any
absent category key is healed to an empty mapping while the present ones are
kept — in particular a stored map missing only `css` loads with an empty
`css` section. `loadUploadMap` is a total function into `SyncMap`, whose
four fields are always present mappings: the run continues in every case. -/
theorem load_heals_missing_state :
    loadUploadMap .missing = emptySyncMap ∧
    loadUploadMap .malformed = emptySyncMap ∧
    (∀ (A : Dict AssetEntry) (H C J : Dict DocEntry),
      loadUploadMap (.parsed (some (.dict A)) (some (.dict H)) none (some (.dict J)))
        = { assets := A, html := H, css := [], js := J } ∧
      loadUploadMap (.parsed none (some (.dict H)) (some (.dict C)) (some (.dict J)))
        = { assets := [], html := H, css := C, js := J } ∧
      loadUploadMap (.parsed (some (.dict A)) none (some (.dict C)) (some (.dict J)))
        = { assets := A, html := [], css := C, js := J } ∧
      loadUploadMap (.parsed (some (.dict A)) (some (.dict H)) (some (.dict C)) none)
        = { assets := A, html := H, css := C, js := [] }) := by
  exact ⟨rfl, rfl, fun A H C J => ⟨rfl, rfl, rfl, rfl⟩⟩

/-- C6: HTML identity resolution is a total function of relative path and
config (it is a Lean function, hence deterministic): `about/team.html` under
team `MYTEAM` yields exactly the claimed upload and link URLs; a root-level
HTML file gets upload path `""`; a nested file gets `/` followed by its
parent directory path. -/
theorem html_identity_resolution :
    HTMLfile.upload_URL "MYTEAM" { dirs := ["about"], filename := "team.html" }
      = "https://2020.igem.org/wiki/index.php?title=Team:MYTEAM/about&action=edit" ∧
    HTMLfile.link_URL "MYTEAM" { dirs := ["about"], filename := "team.html" }
      = "https://2020.igem.org/Team:MYTEAM/about" ∧
    (∀ fn : String, HTMLfile.upload_path { dirs := [], filename := fn } = "") ∧
    (∀ (ds : List String) (fn : String), ds ≠ [] → String.intercalate "/" ds ≠ "." →
      HTMLfile.upload_path { dirs := ds, filename := fn } = "/" ++ String.intercalate "/" ds) := by
  refine ⟨by decide, by decide, fun fn => rfl, ?_⟩
  intro ds fn h1 h2
  simp [HTMLfile.upload_path, parentStr, h1, h2]

/-- Witness for `html_identity_resolution` at the nested path `about/team.html`. -/
theorem html_identity_resolution_witness :
    HTMLfile.upload_path { dirs := ["about"], filename := "team.html" }
      = "/" ++ String.intercalate "/" ["about"] :=
  html_identity_resolution.2.2.2 ["about"] "team.html" (by decide) (by decide)

/-- C7 (failing): for the CSS file `a.b.css` at the source root the claimed
scheme and the code disagree. The code (files.py line 128) rewrites DOTS to
`-`, giving `/a-bCSS`, while the claim's "parent-plus-stem with internal
path separators rewritten to a fixed delimiter" leaves the dot in the stem
`a.b` untouched, giving `/a.bCSS` — and since this file has no directory
components at all, that value is the same for every choice of delimiter, so
the disagreement does not depend on reading `-` as the delimiter. (For
nested files the code also preserves the `/` separators, e.g.
`css/custom.css` maps to `/css/customCSS`.) -/
theorem css_upload_path_spec_counterexample :
    CSSfile.upload_path { dirs := [], filename := "a.b.css" } = "/a-bCSS" ∧
    cssUploadPathPerSpecWording "-" { dirs := [], filename := "a.b.css" } = "/a.bCSS" ∧
    CSSfile.upload_path { dirs := [], filename := "a.b.css" }
      ≠ cssUploadPathPerSpecWording "-" { dirs := [], filename := "a.b.css" } ∧
    CSSfile.upload_path { dirs := ["css"], filename := "custom.css" } = "/css/customCSS" := by
  exact ⟨by decide, by decide, by decide, by decide⟩

/-- C7 (amended): for every CSS and JS file, the upload path is `/` plus the
parent-directory-plus-stem with the DOTS inside it rewritten to `-` (path
separators are preserved), suffixed with the category tag `CSS` resp. `JS`
(so CSS and JS files sharing a base name get distinct template paths); the
upload URL targets the `Template:` namespace edit form, and the link URL
carries the raw content type `text/css` resp. `text/javascript`. -/
theorem template_identity_resolution (team : String) (p : RelPath) :
    CSSfile.upload_path p = "/" ++ (replaceDotDash (parentSlashStem p) ++ "CSS") ∧
    JSfile.upload_path p = "/" ++ (replaceDotDash (parentSlashStem p) ++ "JS") ∧
    CSSfile.upload_URL team p
      = "https://2020.igem.org/wiki/index.php?title=Template:" ++ team
        ++ CSSfile.upload_path p ++ "&action=edit" ∧
    CSSfile.link_URL team p
      = "https://2020.igem.org/Template:" ++ team ++ CSSfile.upload_path p
        ++ "?action=raw&ctype=text/css" ∧
    JSfile.upload_URL team p
      = "https://2020.igem.org/wiki/index.php?title=Template:" ++ team
        ++ JSfile.upload_path p ++ "&action=edit" ∧
    JSfile.link_URL team p
      = "https://2020.igem.org/Template:" ++ team ++ JSfile.upload_path p
        ++ "?action=raw&ctype=text/javascript" ∧
    CSSfile.upload_path p ≠ JSfile.upload_path p := by
  refine ⟨rfl, rfl, rfl, rfl, rfl, rfl, ?_⟩
  intro h
  have hlen := congrArg String.length h
  simp only [CSSfile.upload_path, JSfile.upload_path, String.length_append] at hlen
  have e1 : "/".length = 1 := rfl
  have e2 : "CSS".length = 3 := rfl
  have e3 : "JS".length = 2 := rfl
  rw [e1, e2, e3] at hlen
  omega

/-- C8: the asset upload filename is `T--` + team + `--` + the path
components joined with `--`, dropping the leading component exactly when the
configured asset-root list has length one; concretely `assets/img/logo.png`
gives `T--TEAM--img--logo.png` with one asset root and
`T--TEAM--assets--img--logo.png` with two. -/
theorem asset_filename_collapsing (team : String) (roots : List String) (p : RelPath) :
    (roots.length = 1 →
      OtherFile.upload_filename team roots p
        = "T--" ++ team ++ "--" ++ String.intercalate "--" ((p.dirs ++ [p.filename]).drop 1)) ∧
    (roots.length ≠ 1 →
      OtherFile.upload_filename team roots p
        = "T--" ++ team ++ "--" ++ String.intercalate "--" (p.dirs ++ [p.filename])) ∧
    OtherFile.upload_filename "TEAM" ["assets"]
      { dirs := ["assets", "img"], filename := "logo.png" } = "T--TEAM--img--logo.png" ∧
    OtherFile.upload_filename "TEAM" ["assets", "extra"]
      { dirs := ["assets", "img"], filename := "logo.png" }
      = "T--TEAM--assets--img--logo.png" := by
  refine ⟨?_, ?_, by decide, by decide⟩
  · intro h
    simp [OtherFile.upload_filename, h]
  · intro h
    simp [OtherFile.upload_filename, h]

/-- Witness for `asset_filename_collapsing` with a single asset root. -/
theorem asset_filename_collapsing_witness :
    OtherFile.upload_filename "T" ["a"] { dirs := ["a", "b"], filename := "c.png" }
      = "T--" ++ "T" ++ "--"
        ++ String.intercalate "--" ((["a", "b"] ++ ["c.png"]).drop 1) :=
  (asset_filename_collapsing "T" ["a"] { dirs := ["a", "b"], filename := "c.png" }).1 rfl

/-- C9 (failing in the code): the two digest computations do NOT use one
single fixed algorithm: the asset raw-byte digest is SHA-1 (files.py line
218, inside a method named `_generate_md5_hash` whose docstring says MD5)
while the transformed-document digest is MD5 (main.py line 257). Each phase
compares only against digests of its own kind, so the two families never
meet, but the claim's "one single fixed digest algorithm for both" is
contradicted by the code. -/
theorem hash_algorithms_differ :
    otherFileHashAlg = DigestAlg.sha1 ∧
    docContentHashAlg = DigestAlg.md5 ∧
    otherFileHashAlg ≠ docContentHashAlg ∧
    (∀ (hash : DigestAlg → List Nat → String) (raw text : List Nat),
      otherFileDigest hash raw = hash DigestAlg.sha1 raw ∧
      docContentDigest hash text = hash DigestAlg.md5 text) := by
  exact ⟨rfl, rfl, by decide, fun hash raw text => ⟨rfl, rfl⟩⟩

/-- C10 (failing in its last consequence): in the scenario where the single
document's upload fails on the first run, the final checkpoint still records
the new digest `"hhello"` (the overwrite at main.py line 263 precedes the
upload attempt) — but a subsequent run over the unchanged source does NOT
take the cache-hit path: the scan phase resets the stored digest to `''`
(Path-vs-string key bug at main.py line 124), so the second run re-processes
the file and the failed upload IS retried. -/
theorem failed_doc_upload_retried_next_run :
    failedUploadRunMap.html.get? (.str "index.html")
      = some { md5 := "hhello", linkURL := HTMLfile.link_URL "T" pageRel } ∧
    Event.uploadDoc "index.html" false
      ∈ (runEngine failPageOracle emptySyncMap [pageItem]).1 ∧
    Event.uploadDoc "index.html" true
      ∈ (runEngine okOracle failedUploadRunMap [pageItem]).1 := by
  exact ⟨rfl, by decide, by decide⟩

/-- C10 (amended): when a document's transformed digest differs from the
stored digest, the map entry's digest is overwritten with the new value
before the build write and the upload are attempted, so the entry holds the
new digest regardless of whether the write or the upload fails (both are
skipped-and-logged, non-fatal); the final checkpoint therefore persists the
new digest. However, a later run does not take the cache-hit path for the
file: its scan resets the digest, and the failed upload is retried (shown
concretely in the last conjunct). -/
theorem digest_overwritten_before_upload (O : Oracles) (m : SyncMap) (d : DocFile)
    (contents : String) (entry : DocEntry)
    (h1 : d.contents = some contents)
    (h2 : (m.docCat d.ext).get? (.str (strOfParts d.path)) = some entry)
    (h3 : entry.md5 ≠ O.hashText (O.parse d.ext d.path contents m)) :
    docStep O m d = some
      ((if O.writeBuild d.path then
          [Event.writeBuild (strOfParts d.path),
            Event.uploadDoc (strOfParts d.path) (O.uploadPage d.path)]
        else [Event.writeBuild (strOfParts d.path)]),
        docStepNewMap O m d contents entry) ∧
    (docStepNewMap O m d contents entry).docCat d.ext
      = (m.docCat d.ext).set (.str (strOfParts d.path))
          ({ entry with md5 := O.hashText (O.parse d.ext d.path contents m) }) ∧
    Event.uploadDoc "index.html" true
      ∈ (runEngine okOracle failedUploadRunMap [pageItem]).1 := by
  refine ⟨?_, ?_, by decide⟩
  · unfold docStep
    rw [h1]
    simp only [h2]
    rw [if_neg h3]
    by_cases hw : O.writeBuild d.path
    · rw [if_pos hw, if_pos hw]
    · rw [if_neg hw, if_neg hw]
  · unfold docStepNewMap
    rcases d with ⟨dp, de, dl, du, dc⟩
    rcases de <;> rcases m <;> rfl

/-- Witness for `digest_overwritten_before_upload`: the concrete failing
scenario (post-scan map, page file, upload capability failing). -/
theorem digest_overwritten_before_upload_witness :
    docStep failPageOracle pageScanMap pageDocFile = some
      ([Event.writeBuild "index.html", Event.uploadDoc "index.html" false],
        docStepNewMap failPageOracle pageScanMap pageDocFile "hello"
          { md5 := "", linkURL := HTMLfile.link_URL "T" pageRel }) ∧
    (docStepNewMap failPageOracle pageScanMap pageDocFile "hello"
        { md5 := "", linkURL := HTMLfile.link_URL "T" pageRel }).docCat FileExt.html
      = (pageScanMap.docCat FileExt.html).set (.str "index.html")
          ({ md5 := "hhello", linkURL := HTMLfile.link_URL "T" pageRel }) ∧
    Event.uploadDoc "index.html" true
      ∈ (runEngine okOracle failedUploadRunMap [pageItem]).1 :=
  digest_overwritten_before_upload failPageOracle pageScanMap pageDocFile "hello"
    { md5 := "", linkURL := HTMLfile.link_URL "T" pageRel } rfl rfl (by decide)
